import Mathlib

/-!
Verification development for the decision-copilot repository.

The definitions below are a shallow embedding of the TypeScript sources:
  - packages/nextjs/types/decision.ts        (data model and the API route handler
                                              embedded alongside it: validateIntake,
                                              validateClarificationRequest, runLenses,
                                              synthesizeBrief, handleIntake,
                                              handleClarification)
  - packages/nextjs/lib/db/runs.ts           (getRun, insertRun, replaceRun, with the
                                              MongoDB collection and the in-memory
                                              fallback Map both modeled)
  - packages/nextjs/lenses/risk.ts, lenses/reversibility.ts and the people lens
                                             (the per-lens formatClarificationsForPrompt)
  - the brief-synthesis module               (parseBriefOutput, runBriefSynthesis)

External effects are made explicit: the LLM-backed lens evaluators are passed in as a
function argument, the clock is passed in as a string argument, and JavaScript object
mutation through the in-memory Map alias is modeled as an immediate store update.
-/

namespace DecisionCopilot

-- ============================================
-- Data model (types/decision.ts)
-- ============================================

/-- The lens discriminant: risk, reversibility, people. -/
inductive Lens where
  | risk
  | reversibility
  | people
deriving DecidableEq

/-- Answer types for lens questions. The route-level type lists four values, while the
lens modules additionally use a percentage answer type at runtime; the union of runtime
values is modeled. -/
inductive AnswerType where
  | enum
  | boolean
  | numeric
  | percentage
  | short_text
deriving DecidableEq

/-- Confidence levels of a lens output. -/
inductive Confidence where
  | high
  | medium
  | low
deriving DecidableEq

/-- Run status values of the state machine. -/
inductive DecisionRunStatus where
  | awaiting_intake
  | processing_initial
  | awaiting_clarification
  | processing_clarification
  | pending_brief
  | complete
deriving DecidableEq

/-- Rendering of a status value into the string used in API error messages. -/
def statusToString : DecisionRunStatus → String
  | DecisionRunStatus.awaiting_intake => "awaiting_intake"
  | DecisionRunStatus.processing_initial => "processing_initial"
  | DecisionRunStatus.awaiting_clarification => "awaiting_clarification"
  | DecisionRunStatus.processing_clarification => "processing_clarification"
  | DecisionRunStatus.pending_brief => "pending_brief"
  | DecisionRunStatus.complete => "complete"

/-- Rendering of a lens discriminant into its string form. -/
def lensToString : Lens → String
  | Lens.risk => "risk"
  | Lens.reversibility => "reversibility"
  | Lens.people => "people"

/-- DecisionIntake. The posture is kept as a raw string because it arrives from the
request body and is validated at runtime by isValidPosture; leaning_direction is
optional at runtime for every posture (the discriminated-union restriction is a
compile-time TypeScript device only). -/
structure DecisionIntake where
  decision_id : String
  situation : String
  constraints : String
  posture : String
  leaning_direction : Option String
  knowns_assumptions : Option String
  unknowns : Option String
deriving DecidableEq

/-- LensQuestion, a follow-up question surfaced by a lens. -/
structure LensQuestion where
  question_id : String
  lens : Lens
  question_text : String
  answer_type : AnswerType
  options : Option (List String)
  required : Option Bool
deriving DecidableEq

/-- A clarification answer value: string, boolean or number
(JavaScript answer: string | boolean | number; integer-valued numbers suffice
for the behaviors under study). -/
inductive AnswerValue where
  | str (s : String)
  | bool (b : Bool)
  | num (n : Int)
deriving DecidableEq

/-- The JavaScript String(...) coercion restricted to answer values. -/
def jsString : AnswerValue → String
  | AnswerValue.str s => s
  | AnswerValue.bool true => "true"
  | AnswerValue.bool false => "false"
  | AnswerValue.num n => toString n

/-- ClarificationAnswer. -/
structure ClarificationAnswer where
  question_id : String
  lens : Lens
  answer : AnswerValue
  answer_type : AnswerType
deriving DecidableEq

/-- Clarification: one round of answers. -/
structure Clarification where
  decision_id : String
  run_id : String
  clarification_round : Int
  answers : List ClarificationAnswer
deriving DecidableEq

/-- BlindSpot entries of a lens output. -/
structure BlindSpot where
  area : String
  description : String
deriving DecidableEq

/-- Tradeoff entries of a lens output. -/
structure Tradeoff where
  option : String
  upside : String
  downside : String
deriving DecidableEq

/-- StakeholderImpact entries of the people lens. -/
structure StakeholderImpact where
  stakeholder : String
  impact : String
  sentiment : String
deriving DecidableEq

/-- LensOutput. The TypeScript type is a tagged union over the lens field; it is
modeled as one flat record carrying the shared base fields plus every
variant-specific field (variant fields of the other lenses stay empty). -/
structure LensOutput where
  lens : Lens
  confidence : Confidence
  assumptions_detected : List String
  blind_spots : List BlindSpot
  tradeoffs : List Tradeoff
  remaining_uncertainty : List String
  questions_to_answer_next : List LensQuestion
  top_risks : List String
  irreversible_steps : List String
  safe_to_try_first : List String
  stakeholder_impacts : List StakeholderImpact
  execution_risks : List String
deriving DecidableEq

/-- DecisionBrief. The route handler constructs a brief object carrying only the four
content fields, so title and generated_at are optional in the runtime value space;
the brief-synthesis module always populates them. -/
structure DecisionBrief where
  title : Option String
  generated_at : Option String
  summary : String
  recommendation : String
  key_considerations : List String
  next_steps : List String
deriving DecidableEq

/-- DecisionRunResult, the unit of persistence and the API response envelope. -/
structure DecisionRunResult where
  decision_id : String
  run_id : String
  status : DecisionRunStatus
  intake : DecisionIntake
  clarification_questions : List LensQuestion
  clarification_needed : Bool
  clarifications : List Clarification
  lens_outputs : List LensOutput
  decision_brief : Option DecisionBrief
deriving DecidableEq

-- ============================================
-- Run Store (lib/db/runs.ts)
-- ============================================

/-- The run store. useMemory is true when ensureConnection has degraded to the
in-memory Map (the flag is sticky for a process lifetime, so it is a fixed field of
the scenario); memory models the Map (most recent binding first), mongo models the
runs collection as a list of documents in insertion order (the createdAt/updatedAt
metadata fields added by insertRun/replaceRun are not observable through getRun in
any claim and are omitted). -/
structure RunStore where
  useMemory : Bool
  memory : List (String × DecisionRunResult)
  mongo : List DecisionRunResult
deriving DecidableEq

/-- getRun: in-memory mode reads the Map; MongoDB mode is findOne on run_id, which
returns the first matching document in natural (insertion) order. -/
def getRun (st : RunStore) (run_id : String) : Option DecisionRunResult :=
  if st.useMemory then
    List.lookup run_id st.memory
  else
    st.mongo.find? (fun d => d.run_id == run_id)

/-- Map.set semantics on the association list: the new binding shadows any earlier
binding of the same key (observationally an overwrite). -/
def memSet (m : List (String × DecisionRunResult)) (k : String) (v : DecisionRunResult) :
    List (String × DecisionRunResult) :=
  (k, v) :: m

/-- updateOne on run_id with a full-document set: rewrites the first matching
document and leaves the list unchanged when nothing matches. -/
def updateFirst (l : List DecisionRunResult) (run_id : String) (new : DecisionRunResult) :
    List DecisionRunResult :=
  match l with
  | [] => []
  | d :: ds =>
    if d.run_id == run_id then new :: ds else d :: updateFirst ds run_id new

/-- insertRun: memory mode is Map.set; MongoDB mode is insertOne, which appends a
fresh document (it never removes or rewrites an existing one). -/
def insertRun (st : RunStore) (result : DecisionRunResult) : RunStore :=
  if st.useMemory then
    { st with memory := memSet st.memory result.run_id result }
  else
    { st with mongo := st.mongo ++ [result] }

/-- replaceRun: memory mode is Map.set (creating the key when absent); MongoDB mode
is updateOne on run_id (rewriting only the first match, a no-op when absent). -/
def replaceRun (st : RunStore) (run_id : String) (result : DecisionRunResult) : RunStore :=
  if st.useMemory then
    { st with memory := memSet st.memory run_id result }
  else
    { st with mongo := updateFirst st.mongo run_id result }

-- ============================================
-- Request types and validation (route handler)
-- ============================================

/-- The intake request body. Absent optional text fields are modeled as the empty
string where JavaScript treats undefined and the empty string alike under the
falsy-after-trim checks. -/
structure IntakeRequest where
  decision_id : Option String
  situation : String
  constraints : String
  posture : String
  leaning_direction : Option String
  knowns_assumptions : Option String
  unknowns : Option String
deriving DecidableEq

/-- The clarification request body (decision_id, run_id, plus the round and answers). -/
structure ClarificationRequest where
  decision_id : String
  run_id : String
  clarification_round : Int
  answers : List ClarificationAnswer
deriving DecidableEq

/-- The JavaScript trim used by the falsy-after-trim request checks: whitespace is
stripped from both ends. (Defined over the character list so that concrete inputs
evaluate inside the kernel.) -/
def trimString (s : String) : String :=
  String.mk (((s.data.dropWhile Char.isWhitespace).reverse.dropWhile Char.isWhitespace).reverse)

/-- isValidPosture from the route handler. -/
def isValidPosture (posture : String) : Bool :=
  posture == "explore" || posture == "pressure_test" ||
    posture == "surface_risks" || posture == "generate_alternatives"

/-- validateIntake from the route handler, returning the error message when the
intake is rejected. -/
def validateIntake (intake : IntakeRequest) : Option String :=
  if trimString intake.situation == "" then
    some "situation is required"
  else if trimString intake.constraints == "" then
    some "constraints is required"
  else if !isValidPosture intake.posture then
    some "posture must be one of: explore, pressure_test, surface_risks, generate_alternatives"
  else if intake.posture == "pressure_test" && trimString (intake.leaning_direction.getD "") == "" then
    some "leaning_direction is required when posture is pressure_test"
  else
    none

/-- validateClarificationRequest from the route handler. -/
def validateClarificationRequest (req : ClarificationRequest) : Option String :=
  if trimString req.decision_id == "" then
    some "decision_id is required"
  else if trimString req.run_id == "" then
    some "run_id is required"
  else if req.answers.isEmpty then
    some "clarification.answers is required"
  else
    none

-- ============================================
-- Lens processing (route handler)
-- ============================================

/-- A lens evaluator as seen from the route handler: runRiskLens / runReversibilityLens /
runPeopleLens, selected by the lens discriminant, given the intake and a clarification
list, and either returning a structured output or throwing. -/
def LensEvaluator : Type :=
  Lens → DecisionIntake → List Clarification → Except String LensOutput

/-- extractClarificationQuestions: flattens questions_to_answer_next across all lens
outputs. -/
def extractClarificationQuestions (lensOutputs : List LensOutput) : List LensQuestion :=
  (lensOutputs.map (fun output => output.questions_to_answer_next)).flatten

/-- runLenses from the route handler: it awaits only runRiskLens(intake) - the risk
evaluator, invoked with the default (empty) clarification list - and returns the
singleton list; the clarifications parameter is ignored. -/
def runLenses (ev : LensEvaluator) (intake : DecisionIntake)
    (_clarifications : List Clarification) : Except String (List LensOutput) :=
  match ev Lens.risk intake [] with
  | Except.error e => Except.error e
  | Except.ok riskOutput => Except.ok [riskOutput]

/-- synthesizeBrief from the route handler: a pure placeholder. The returned object
literal carries only summary, recommendation, key_considerations and next_steps, so
title and generated_at are absent in the produced value. -/
def synthesizeBrief (_intake : DecisionIntake) (_lensOutputs : List LensOutput) :
    DecisionBrief :=
  { title := none
    generated_at := none
    summary := "Pending implementation"
    recommendation := "Pending implementation"
    key_considerations := []
    next_steps := [] }

-- ============================================
-- Route handlers (POST /api/decision/run)
-- ============================================

/-- An API response: either the JSON body of a run, or an error message with its HTTP
status code. A thrown lens evaluation surfaces through the POST catch block as the
500 Internal server error response. -/
inductive ApiResponse where
  | ok (run : DecisionRunResult)
  | error (message : String) (status : Nat)
deriving DecidableEq

/-- Whether a response is the success case. -/
def ApiResponse.isOk : ApiResponse → Bool
  | ApiResponse.ok _ => true
  | ApiResponse.error _ _ => false

/-- handleIntake. The two randomUUID() draws are passed in explicitly
(freshDecisionId for the decision when the request carries none, runId for the run). -/
def handleIntake (ev : LensEvaluator) (freshDecisionId runId : String)
    (req : IntakeRequest) (st : RunStore) : ApiResponse × RunStore :=
  match validateIntake req with
  | some msg => (ApiResponse.error msg 400, st)
  | none =>
    let decision_id :=
      match req.decision_id with
      | some d => if d == "" then freshDecisionId else d
      | none => freshDecisionId
    let intake : DecisionIntake :=
      { decision_id := decision_id
        situation := req.situation
        constraints := req.constraints
        posture := req.posture
        leaning_direction := req.leaning_direction
        knowns_assumptions := req.knowns_assumptions
        unknowns := req.unknowns }
    match runLenses ev intake [] with
    | Except.error _ => (ApiResponse.error "Internal server error" 500, st)
    | Except.ok lens_outputs =>
      let clarification_questions := extractClarificationQuestions lens_outputs
      let clarification_needed := decide (0 < clarification_questions.length)
      let decision_brief :=
        if clarification_needed then none else some (synthesizeBrief intake lens_outputs)
      let status :=
        if clarification_needed then DecisionRunStatus.awaiting_clarification
        else DecisionRunStatus.complete
      let result : DecisionRunResult :=
        { decision_id := decision_id
          run_id := runId
          status := status
          intake := intake
          clarification_questions := clarification_questions
          clarification_needed := clarification_needed
          clarifications := []
          lens_outputs := lens_outputs
          decision_brief := decision_brief }
      (ApiResponse.ok result, insertRun st result)

/-- The Clarification object built by handleClarification from the request: the caller
supplied decision_id and clarification_round are recorded verbatim. -/
def submittedClarification (req : ClarificationRequest) : Clarification :=
  { decision_id := req.decision_id
    run_id := req.run_id
    clarification_round := req.clarification_round
    answers := req.answers }

/-- handleClarification. In in-memory mode the run object returned by getRun is the
very object held by the Map, so the field assignments performed before the lens
re-run (the clarifications push and the status change) are immediately visible in
the store; that aliasing is modeled by writing the partially updated run into the
store at that point. In MongoDB mode findOne materializes a separate document and
the store changes only at replaceRun. -/
def handleClarification (ev : LensEvaluator) (req : ClarificationRequest)
    (st : RunStore) : ApiResponse × RunStore :=
  match validateClarificationRequest req with
  | some msg => (ApiResponse.error msg 400, st)
  | none =>
    match getRun st req.run_id with
    | none => (ApiResponse.error "Run not found. Please start a new decision." 404, st)
    | some existingRun =>
      if existingRun.status ≠ DecisionRunStatus.awaiting_clarification then
        (ApiResponse.error
          ("Cannot submit clarification for run in status: " ++ statusToString existingRun.status)
          400, st)
      else
        let run1 : DecisionRunResult :=
          { existingRun with
            clarifications := existingRun.clarifications ++ [submittedClarification req]
            status := DecisionRunStatus.processing_clarification }
        let st1 :=
          if st.useMemory then { st with memory := memSet st.memory req.run_id run1 } else st
        match runLenses ev existingRun.intake run1.clarifications with
        | Except.error _ => (ApiResponse.error "Internal server error" 500, st1)
        | Except.ok lens_outputs =>
          let decision_brief := synthesizeBrief existingRun.intake lens_outputs
          let finalRun : DecisionRunResult :=
            { run1 with
              lens_outputs := lens_outputs
              decision_brief := some decision_brief
              status := DecisionRunStatus.complete
              clarification_needed := false
              clarification_questions := [] }
          (ApiResponse.ok finalRun, replaceRun st1 req.run_id finalRun)

-- ============================================
-- Clarification rendering in the lens prompt builders
-- (lenses/risk.ts, lenses/reversibility.ts, the people lens)
-- ============================================

/-- The text rendered for one answer by the risk lens prompt builder: a plain
String(a.answer), with no sentinel and no percentage handling. -/
def riskAnswerText (a : ClarificationAnswer) : String :=
  jsString a.answer

/-- The text rendered for one answer by the reversibility lens prompt builder: the
boolean sentinel string maps to the spelled-out form, everything else is
String(a.answer); there is no percentage handling. -/
def reversibilityAnswerText (a : ClarificationAnswer) : String :=
  if a.answer = AnswerValue.str "unknown" then "unknown (user didn\x27t know)"
  else jsString a.answer

/-- The text rendered for one answer by the people lens prompt builder: the sentinel
is spelled out, a numeric answer of percentage type gains a trailing percent sign,
everything else is String(a.answer). -/
def peopleAnswerText (a : ClarificationAnswer) : String :=
  if a.answer = AnswerValue.str "unknown" then "unknown (user didn\x27t know)"
  else
    match a.answer_type, a.answer with
    | AnswerType.percentage, AnswerValue.num n => toString n ++ "%"
    | _, _ => jsString a.answer

/-- One rendered line of the follow-up block, shared template of all three builders. -/
def answerLine (text : ClarificationAnswer → String) (a : ClarificationAnswer) : String :=
  "- " ++ a.question_id ++ " (" ++ lensToString a.lens ++ "): " ++ text a

/-- The follow-up block shared by the three builders, parameterized by the per-answer
text rule and the lens-specific closing sentence. -/
def clarificationsBlock (text : ClarificationAnswer → String) (closing : String)
    (clarifications : List Clarification) : String :=
  if clarifications.isEmpty then ""
  else
    let lines := (clarifications.map (fun c => c.answers.map (answerLine text))).flatten
    "\n\n## Follow-up answers from the user\n" ++ String.intercalate "\n" lines ++ closing

/-- formatClarificationsForPrompt of lenses/risk.ts. -/
def riskFormatClarificationsForPrompt (clarifications : List Clarification) : String :=
  clarificationsBlock riskAnswerText
    "\n\nUse these answers to refine your risk analysis. Do not ask the same questions again."
    clarifications

/-- formatClarificationsForPrompt of lenses/reversibility.ts. -/
def reversibilityFormatClarificationsForPrompt (clarifications : List Clarification) : String :=
  clarificationsBlock reversibilityAnswerText
    "\n\nUse these answers to refine your reversibility analysis. Do not ask the same questions again."
    clarifications

/-- formatClarificationsForPrompt of the people lens. -/
def peopleFormatClarificationsForPrompt (clarifications : List Clarification) : String :=
  clarificationsBlock peopleAnswerText
    "\n\nUse these answers to refine your people and execution analysis. Do not ask the same questions again."
    clarifications

-- ============================================
-- Brief synthesis module (runBriefSynthesis / parseBriefOutput)
-- ============================================

/-- The raw structured output returned by the LLM for the brief; every field may be
absent at runtime. -/
structure RawBriefOutput where
  title : Option String
  summary : Option String
  recommendation : Option String
  key_considerations : Option (List String)
  next_steps : Option (List String)
deriving DecidableEq

/-- parseBriefOutput: trims the text fields with falsy-coalescing defaults and stamps
the given generated_at value. -/
def parseBriefOutput (raw : RawBriefOutput) (generated_at : String) : DecisionBrief :=
  let t := trimString (raw.title.getD "")
  { title := some (if t == "" then "Decision brief" else t)
    generated_at := some generated_at
    summary := trimString (raw.summary.getD "")
    recommendation := trimString (raw.recommendation.getD "")
    key_considerations := raw.key_considerations.getD []
    next_steps := raw.next_steps.getD [] }

/-- runBriefSynthesis: the LLM call is made explicit as the parsed response argument,
and the new Date().toISOString() drawn at call time is the now argument; an absent
structured response throws. The intake, lens outputs and clarifications feed only the
prompt, never the timestamp. -/
def runBriefSynthesis (_intake : DecisionIntake) (_lensOutputs : List LensOutput)
    (_clarifications : List Clarification) (parsed : Option RawBriefOutput)
    (now : String) : Except String DecisionBrief :=
  match parsed with
  | none => Except.error "Brief synthesis did not return valid structured output"
  | some raw => Except.ok (parseBriefOutput raw now)

-- ============================================
-- Concrete fixtures used by witnesses and counterexamples
-- ============================================

/-- A valid explore-posture intake. -/
def intake0 : DecisionIntake :=
  { decision_id := "d1"
    situation := "Switch DB"
    constraints := "3mo, 2 devs"
    posture := "explore"
    leaning_direction := none
    knowns_assumptions := none
    unknowns := none }

/-- A risk follow-up question. -/
def q0 : LensQuestion :=
  { question_id := "q1"
    lens := Lens.risk
    question_text := "What is the rollback plan?"
    answer_type := AnswerType.short_text
    options := none
    required := some true }

/-- A risk lens output with no follow-up questions. -/
def out0 : LensOutput :=
  { lens := Lens.risk
    confidence := Confidence.medium
    assumptions_detected := []
    blind_spots := []
    tradeoffs := []
    remaining_uncertainty := []
    questions_to_answer_next := []
    top_risks := ["migration stalls"]
    irreversible_steps := []
    safe_to_try_first := []
    stakeholder_impacts := []
    execution_risks := [] }

/-- A risk lens output carrying one follow-up question. -/
def outQ : LensOutput :=
  { out0 with questions_to_answer_next := [q0] }

/-- One clarification answer. -/
def ans0 : ClarificationAnswer :=
  { question_id := "q1"
    lens := Lens.risk
    answer := AnswerValue.str "Intermediate"
    answer_type := AnswerType.enum }

/-- One clarification round as stored on a run. -/
def clar0 : Clarification :=
  { decision_id := "d1"
    run_id := "r1"
    clarification_round := 1
    answers := [ans0] }

/-- A run waiting for clarification. -/
def run0 : DecisionRunResult :=
  { decision_id := "d1"
    run_id := "r1"
    status := DecisionRunStatus.awaiting_clarification
    intake := intake0
    clarification_questions := [q0]
    clarification_needed := true
    clarifications := []
    lens_outputs := [outQ]
    decision_brief := none }

/-- The same run already completed. -/
def runComplete0 : DecisionRunResult :=
  { run0 with
    status := DecisionRunStatus.complete
    clarification_questions := []
    clarification_needed := false
    decision_brief := some (synthesizeBrief intake0 [out0]) }

/-- An in-memory-mode store holding run0. -/
def stMem0 : RunStore :=
  { useMemory := true, memory := [("r1", run0)], mongo := [] }

/-- A MongoDB-mode store holding run0. -/
def stMongo0 : RunStore :=
  { useMemory := false, memory := [], mongo := [run0] }

/-- An evaluator that always succeeds with a question-free output. -/
def evOk : LensEvaluator :=
  fun _ _ _ => Except.ok out0

/-- An evaluator that always throws. -/
def evFail : LensEvaluator :=
  fun _ _ _ => Except.error "upstream failure"

/-- A tracing evaluator: it records, inside the returned output, the lens it was
invoked as and the decision_id of every clarification it was handed. -/
def evTrace : LensEvaluator :=
  fun l _ cls =>
    Except.ok { out0 with lens := l, remaining_uncertainty := cls.map (fun c => c.decision_id) }

/-- A well-formed clarification request matching run0. -/
def req0 : ClarificationRequest :=
  { decision_id := "d1"
    run_id := "r1"
    clarification_round := 1
    answers := [ans0] }

/-- A clarification request whose decision_id does not match run0 and whose round is
negative. -/
def reqMismatch : ClarificationRequest :=
  { decision_id := "other-decision"
    run_id := "r1"
    clarification_round := -5
    answers := [ans0] }

-- ============================================
-- Extra fixtures for the individual claims
-- ============================================

/-- An empty in-memory-mode store. -/
def stEmptyMem : RunStore :=
  { useMemory := true, memory := [], mongo := [] }

/-- An in-memory-mode store holding the completed run. -/
def stMemComplete : RunStore :=
  { useMemory := true, memory := [("r1", runComplete0)], mongo := [] }

/-- A valid intake request whose enriched intake is intake0. -/
def reqValidIntake : IntakeRequest :=
  { decision_id := some "d1"
    situation := "Switch DB"
    constraints := "3mo, 2 devs"
    posture := "explore"
    leaning_direction := none
    knowns_assumptions := none
    unknowns := none }

/-- An intake request with a blank situation. -/
def reqNoSituation : IntakeRequest :=
  { reqValidIntake with situation := "   " }

/-- An explore-posture intake request that also supplies leaning_direction. -/
def reqLeanExplore : IntakeRequest :=
  { reqValidIntake with leaning_direction := some "Migrate to Postgres" }

/-- A second run bearing the run_id of run0 but different content. -/
def runB : DecisionRunResult :=
  { run0 with decision_id := "d2", status := DecisionRunStatus.complete }

/-- The boolean-sentinel answer as it reaches the risk lens builder. -/
def ansUnknownRisk : ClarificationAnswer :=
  { question_id := "q1"
    lens := Lens.risk
    answer := AnswerValue.str "unknown"
    answer_type := AnswerType.boolean }

/-- A percentage answer of 50 as it reaches the reversibility lens builder. -/
def ansPctRev : ClarificationAnswer :=
  { question_id := "q2"
    lens := Lens.reversibility
    answer := AnswerValue.num 50
    answer_type := AnswerType.percentage }

/-- A percentage answer of 50 as it reaches the people lens builder. -/
def ansPctPeople : ClarificationAnswer :=
  { question_id := "q3"
    lens := Lens.people
    answer := AnswerValue.num 50
    answer_type := AnswerType.percentage }

/-- The boolean-sentinel answer as it reaches the people lens builder. -/
def ansUnknownPeople : ClarificationAnswer :=
  { question_id := "q3"
    lens := Lens.people
    answer := AnswerValue.str "unknown"
    answer_type := AnswerType.boolean }

/-- The run produced by a completed intake over reqValidIntake with evaluator evOk. -/
def intakeRunComplete : DecisionRunResult :=
  { decision_id := "d1"
    run_id := "r9"
    status := DecisionRunStatus.complete
    intake := intake0
    clarification_questions := []
    clarification_needed := false
    clarifications := []
    lens_outputs := [out0]
    decision_brief := some (synthesizeBrief intake0 [out0]) }

/-- The intake enriched with the chosen decision_id, as built by handleIntake
(the request value when present and non-empty, else the fresh UUID). -/
def enrichedIntake (freshDecisionId : String) (req : IntakeRequest) : DecisionIntake :=
  { decision_id :=
      match req.decision_id with
      | some dd => if dd == "" then freshDecisionId else dd
      | none => freshDecisionId
    situation := req.situation
    constraints := req.constraints
    posture := req.posture
    leaning_direction := req.leaning_direction
    knowns_assumptions := req.knowns_assumptions
    unknowns := req.unknowns }

/-- The run document built by a successful handleIntake over the given lens outputs. -/
def intakeResult (freshDecisionId runId : String) (req : IntakeRequest)
    (louts : List LensOutput) : DecisionRunResult :=
  { decision_id := (enrichedIntake freshDecisionId req).decision_id
    run_id := runId
    status :=
      if decide (0 < (extractClarificationQuestions louts).length) = true then
        DecisionRunStatus.awaiting_clarification
      else DecisionRunStatus.complete
    intake := enrichedIntake freshDecisionId req
    clarification_questions := extractClarificationQuestions louts
    clarification_needed := decide (0 < (extractClarificationQuestions louts).length)
    clarifications := []
    lens_outputs := louts
    decision_brief :=
      if decide (0 < (extractClarificationQuestions louts).length) = true then none
      else some (synthesizeBrief (enrichedIntake freshDecisionId req) louts) }

/-- The partially updated run visible through the Map alias before the lens re-run:
the submitted round is already appended and the status already changed. -/
def pendingRun (req : ClarificationRequest) (run : DecisionRunResult) : DecisionRunResult :=
  { run with
    clarifications := run.clarifications ++ [submittedClarification req]
    status := DecisionRunStatus.processing_clarification }

/-- The run produced by a successful clarification submission. -/
def clarifiedRun (req : ClarificationRequest) (run : DecisionRunResult)
    (outs : List LensOutput) : DecisionRunResult :=
  { run with
    clarifications := run.clarifications ++ [submittedClarification req]
    status := DecisionRunStatus.complete
    lens_outputs := outs
    decision_brief := some (synthesizeBrief run.intake outs)
    clarification_needed := false
    clarification_questions := [] }

-- ============================================
-- Helper lemmas about the store
-- ============================================

/-- clarification_needed as computed at intake time is the non-emptiness of the
question list. -/
lemma needed_iff (qs : List LensQuestion) : decide (0 < qs.length) = true ↔ qs ≠ [] := by
  cases qs <;> simp

/-- find? is stable under appending on the right once it has succeeded. -/
lemma find?_append_some (l1 l2 : List DecisionRunResult)
    (p : DecisionRunResult → Bool) (a : DecisionRunResult)
    (h : l1.find? p = some a) : (l1 ++ l2).find? p = some a := by
  induction l1 with
  | nil => simp [List.find?] at h
  | cons d ds ih =>
    by_cases hd : p d = true
    · rw [List.find?_cons_of_pos ds hd] at h
      rw [List.cons_append, List.find?_cons_of_pos (ds ++ l2) hd]
      exact h
    · rw [List.find?_cons_of_neg ds hd] at h
      rw [List.cons_append, List.find?_cons_of_neg (ds ++ l2) hd]
      exact ih h

/-- After rewriting the first matching document, find? returns the new document,
provided the new document still matches. -/
lemma find?_updateFirst (l : List DecisionRunResult) (id : String)
    (new old : DecisionRunResult)
    (h : l.find? (fun d => d.run_id == id) = some old)
    (hnew : (new.run_id == id) = true) :
    (updateFirst l id new).find? (fun d => d.run_id == id) = some new := by
  induction l with
  | nil => simp [List.find?] at h
  | cons d ds ih =>
    by_cases hd : (d.run_id == id) = true
    · simp only [updateFirst, hd, if_true]
      exact List.find?_cons_of_pos ds hnew
    · have hd' : (d.run_id == id) = false := by simpa using hd
      rw [List.find?_cons_of_neg ds hd] at h
      simp only [updateFirst, hd', Bool.false_eq_true, if_false]
      rw [List.find?_cons_of_neg (updateFirst ds id new) hd]
      exact ih h

/-- updateOne is the identity when no document matches. -/
lemma updateFirst_of_none (l : List DecisionRunResult) (id : String)
    (new : DecisionRunResult)
    (h : l.find? (fun d => d.run_id == id) = none) :
    updateFirst l id new = l := by
  induction l with
  | nil => rfl
  | cons d ds ih =>
    by_cases hd : (d.run_id == id) = true
    · rw [List.find?_cons_of_pos ds hd] at h
      cases h
    · have hd' : (d.run_id == id) = false := by simpa using hd
      rw [List.find?_cons_of_neg ds hd] at h
      simp only [updateFirst, hd', Bool.false_eq_true, if_false]
      rw [ih h]

/-- handleIntake restated without intermediate let bindings, for case analysis. -/
lemma handleIntake_eq (ev : LensEvaluator) (d r : String) (req : IntakeRequest)
    (st : RunStore) :
    handleIntake ev d r req st =
      match validateIntake req with
      | some msg => (ApiResponse.error msg 400, st)
      | none =>
        match runLenses ev (enrichedIntake d req) [] with
        | Except.error _ => (ApiResponse.error "Internal server error" 500, st)
        | Except.ok louts =>
          (ApiResponse.ok (intakeResult d r req louts), insertRun st (intakeResult d r req louts)) := by
  unfold handleIntake enrichedIntake intakeResult
  rfl

/-- handleClarification restated without intermediate let bindings, for case
analysis. -/
lemma handleClarification_eq (ev : LensEvaluator) (req : ClarificationRequest)
    (st : RunStore) :
    handleClarification ev req st =
      match validateClarificationRequest req with
      | some msg => (ApiResponse.error msg 400, st)
      | none =>
        match getRun st req.run_id with
        | none => (ApiResponse.error "Run not found. Please start a new decision." 404, st)
        | some run =>
          if run.status ≠ DecisionRunStatus.awaiting_clarification then
            (ApiResponse.error
              ("Cannot submit clarification for run in status: " ++ statusToString run.status)
              400, st)
          else
            match runLenses ev run.intake (run.clarifications ++ [submittedClarification req]) with
            | Except.error _ =>
              (ApiResponse.error "Internal server error" 500,
                if st.useMemory then
                  { st with memory := memSet st.memory req.run_id (pendingRun req run) }
                else st)
            | Except.ok louts =>
              (ApiResponse.ok (clarifiedRun req run louts),
                replaceRun
                  (if st.useMemory then
                    { st with memory := memSet st.memory req.run_id (pendingRun req run) }
                  else st)
                  req.run_id (clarifiedRun req run louts)) := by
  unfold handleClarification pendingRun clarifiedRun
  rfl

/-- When validation passes, the run is found awaiting clarification and the lens
re-run succeeds, handleClarification returns the completed run and persists it via
replaceRun, with the in-memory alias write already applied before the re-run. -/
lemma handleClarification_success (ev : LensEvaluator) (req : ClarificationRequest)
    (st : RunStore) (run : DecisionRunResult) (outs : List LensOutput)
    (hval : validateClarificationRequest req = none)
    (hget : getRun st req.run_id = some run)
    (hstatus : run.status = DecisionRunStatus.awaiting_clarification)
    (hlens : runLenses ev run.intake (run.clarifications ++ [submittedClarification req]) =
      Except.ok outs) :
    handleClarification ev req st =
      (ApiResponse.ok (clarifiedRun req run outs),
        replaceRun
          (if st.useMemory then
            { st with memory := memSet st.memory req.run_id (pendingRun req run) }
          else st)
          req.run_id (clarifiedRun req run outs)) := by
  unfold handleClarification
  rw [hval, hget]
  simp [hstatus, hlens, pendingRun, clarifiedRun]

/-- In both store modes, the run persisted by a successful clarification submission
is the one a subsequent getRun on the same run_id observes. -/
lemma handleClarification_success_getRun (ev : LensEvaluator) (req : ClarificationRequest)
    (st : RunStore) (run : DecisionRunResult) (outs : List LensOutput)
    (hval : validateClarificationRequest req = none)
    (hget : getRun st req.run_id = some run)
    (hstatus : run.status = DecisionRunStatus.awaiting_clarification)
    (hlens : runLenses ev run.intake (run.clarifications ++ [submittedClarification req]) =
      Except.ok outs) :
    getRun (handleClarification ev req st).2 req.run_id = some (clarifiedRun req run outs) := by
  rw [handleClarification_success ev req st run outs hval hget hstatus hlens]
  by_cases hm : st.useMemory = true
  · simp [replaceRun, getRun, memSet, hm, List.lookup]
  · have hm' : st.useMemory = false := by simpa using hm
    have hget' : st.mongo.find? (fun d => d.run_id == req.run_id) = some run := by
      simpa [getRun, hm'] using hget
    have hrid : (run.run_id == req.run_id) = true := by
      have hp := List.find?_some hget'
      simpa using hp
    have hfin : ((clarifiedRun req run outs).run_id == req.run_id) = true := hrid
    simp only [replaceRun, getRun, hm', Bool.false_eq_true, if_false]
    exact find?_updateFirst st.mongo req.run_id _ run hget' hfin

-- ============================================
-- C2: lens orchestration coverage
-- ============================================

/-- C2 counterexample: runLenses does not invoke the full configured lens set and
does not pass the accumulated clarifications. With the tracing evaluator and one
accumulated clarification round, the result is a single risk output that records an
empty clarification list, although the same evaluator invoked with the accumulated
round would have recorded it. -/
theorem C2_counterexample :
    runLenses evTrace intake0 [clar0] =
      Except.ok [{ out0 with lens := Lens.risk, remaining_uncertainty := [] }] ∧
    evTrace Lens.risk intake0 [clar0] =
      Except.ok { out0 with lens := Lens.risk, remaining_uncertainty := ["d1"] } ∧
    ([{ out0 with lens := Lens.risk, remaining_uncertainty := [] }] : List LensOutput).length = 1 ∧
    ([clar0] : List Clarification) ≠ [] := by
  refine ⟨rfl, rfl, rfl, by decide⟩

/-- C2 amended: runLenses consults only the risk evaluator, handing it the intake
with an empty clarification list; its result is the singleton of the risk output (or
the propagated failure), and it is insensitive both to the clarification argument
and to the behavior of the evaluator on the other lenses. -/
theorem C2_amended (ev ev2 : LensEvaluator) (intake : DecisionIntake)
    (cls cls2 : List Clarification) :
    (∀ o, ev Lens.risk intake [] = Except.ok o → runLenses ev intake cls = Except.ok [o]) ∧
    (∀ e, ev Lens.risk intake [] = Except.error e → runLenses ev intake cls = Except.error e) ∧
    (ev Lens.risk intake [] = ev2 Lens.risk intake [] →
      runLenses ev intake cls = runLenses ev2 intake cls2) := by
  refine ⟨?_, ?_, ?_⟩
  · intro o h
    unfold runLenses
    rw [h]
  · intro e h
    unfold runLenses
    rw [h]
  · intro h
    unfold runLenses
    rw [h]

/-- C2 witness: the amended statement evaluated at concrete evaluators. -/
theorem C2_witness :
    runLenses evOk intake0 [clar0] = Except.ok [out0] ∧
    runLenses evFail intake0 [] = Except.error "upstream failure" := by
  exact ⟨(C2_amended evOk evOk intake0 [clar0] []).1 out0 rfl,
    (C2_amended evFail evFail intake0 [] []).2.1 "upstream failure" rfl⟩

-- ============================================
-- C4: rendering of clarification answers
-- ============================================

/-- C4 counterexample: the risk builder renders the boolean sentinel as the bare word
(the spelled-out sentinel never occurs in its line), and the reversibility builder
renders a percentage answer of 50 without the percent sign. -/
theorem C4_counterexample :
    answerLine riskAnswerText ansUnknownRisk = "- q1 (risk): unknown" ∧
    riskAnswerText ansUnknownRisk = "unknown" ∧
    ("unknown" : String) ≠ "unknown (user didn\x27t know)" ∧
    reversibilityAnswerText ansPctRev = "50" ∧
    ("50" : String) ≠ "50%" := by
  refine ⟨rfl, rfl, by decide, rfl, by decide⟩

/-- C4 amended: only the people builder applies both rendering rules. The sentinel
rule holds for the reversibility and people builders but the risk builder renders the
bare word; the percentage rule holds only for the people builder, while risk and
reversibility render the bare number; every builder renders lines of the shape
dash, question_id, parenthesized lens, colon, value. -/
theorem C4_amended (a : ClarificationAnswer) :
    (a.answer = AnswerValue.str "unknown" →
      reversibilityAnswerText a = "unknown (user didn\x27t know)" ∧
      peopleAnswerText a = "unknown (user didn\x27t know)" ∧
      riskAnswerText a = "unknown") ∧
    (∀ n : Int, a.answer = AnswerValue.num n → a.answer_type = AnswerType.percentage →
      peopleAnswerText a = toString n ++ "%" ∧
      riskAnswerText a = toString n ∧
      reversibilityAnswerText a = toString n) ∧
    (∀ f : ClarificationAnswer → String,
      answerLine f a = "- " ++ a.question_id ++ " (" ++ lensToString a.lens ++ "): " ++ f a) := by
  refine ⟨?_, ?_, fun f => rfl⟩
  · intro h
    simp [reversibilityAnswerText, peopleAnswerText, riskAnswerText, h, jsString]
  · intro n hn ht
    have hne : a.answer ≠ AnswerValue.str "unknown" := by
      rw [hn]; intro hc; cases hc
    simp [peopleAnswerText, riskAnswerText, reversibilityAnswerText, hn, ht, hne, jsString]

/-- C4 witness: the amended statement evaluated on the sentinel and on a percentage
answer of 50 for the people builder. -/
theorem C4_witness :
    peopleAnswerText ansUnknownPeople = "unknown (user didn\x27t know)" ∧
    peopleAnswerText ansPctPeople = "50%" := by
  exact ⟨((C4_amended ansUnknownPeople).1 rfl).2.1,
    ((C4_amended ansPctPeople).2.1 50 rfl rfl).1⟩

-- ============================================
-- C5: intake validation
-- ============================================

/-- C5 counterexample: an explore-posture intake that also supplies leaning_direction
passes validation and is accepted by handleIntake, so the direction of the
biconditional that should reject a leaning_direction outside pressure_test is not
enforced. -/
theorem C5_counterexample :
    validateIntake reqLeanExplore = none ∧
    reqLeanExplore.posture ≠ "pressure_test" ∧
    reqLeanExplore.leaning_direction = some "Migrate to Postgres" ∧
    (handleIntake evOk "d0" "r0" reqLeanExplore stEmptyMem).1.isOk = true := by
  refine ⟨rfl, by decide, rfl, rfl⟩

/-- C5 amended: submitIntake fails with a ValidationError (HTTP 400, store untouched)
exactly when situation or constraints is blank after trimming, the posture is outside
the four valid values, or posture is pressure_test with a missing or blank
leaning_direction; supplying leaning_direction with another posture is not rejected. -/
theorem C5_amended (req : IntakeRequest) :
    ((validateIntake req).isSome = true ↔
      (trimString req.situation = "" ∨ trimString req.constraints = "" ∨
        isValidPosture req.posture = false ∨
        (req.posture = "pressure_test" ∧ trimString (req.leaning_direction.getD "") = ""))) ∧
    (∀ (ev : LensEvaluator) (d r : String) (st : RunStore) (m : String),
      validateIntake req = some m →
      handleIntake ev d r req st = (ApiResponse.error m 400, st)) := by
  constructor
  · unfold validateIntake
    split_ifs with h1 h2 h3 h4 <;>
      simp_all [Bool.not_eq_true]
  · intro ev d r st m h
    unfold handleIntake
    rw [h]

/-- C5 witness: the amended statement evaluated at a blank-situation request. -/
theorem C5_witness :
    handleIntake evOk "d0" "r0" reqNoSituation stEmptyMem =
      (ApiResponse.error "situation is required" 400, stEmptyMem) := by
  exact (C5_amended reqNoSituation).2 evOk "d0" "r0" stEmptyMem "situation is required" rfl

-- ============================================
-- C7: decision brief synthesis
-- ============================================

/-- C7 counterexample: the brief produced by the route handler's synthesizeBrief
carries neither generated_at nor title, so not every synthesized brief contains all
six fields. -/
theorem C7_counterexample :
    (synthesizeBrief intake0 [out0]).generated_at = none ∧
    (synthesizeBrief intake0 [out0]).title = none := by
  exact ⟨rfl, rfl⟩

/-- C7 amended: briefs produced by runBriefSynthesis carry all six fields, with
generated_at equal to the clock value drawn at the synthesis call and independent of
the intake, lens outputs and clarifications; the route handler's placeholder
synthesizeBrief instead produces a brief lacking title and generated_at. -/
theorem C7_amended (intake : DecisionIntake) (louts : List LensOutput)
    (cls : List Clarification) (raw : RawBriefOutput) (now : String) :
    runBriefSynthesis intake louts cls (some raw) now =
      Except.ok (parseBriefOutput raw now) ∧
    (parseBriefOutput raw now).generated_at = some now ∧
    (parseBriefOutput raw now).title.isSome = true ∧
    runBriefSynthesis intake louts cls none now =
      Except.error "Brief synthesis did not return valid structured output" ∧
    (synthesizeBrief intake louts).title = none ∧
    (synthesizeBrief intake louts).generated_at = none := by
  exact ⟨rfl, rfl, rfl, rfl, rfl, rfl⟩

/-- A concrete raw structured brief response. -/
def rawBrief0 : RawBriefOutput :=
  { title := some "Recommendation: proceed after staging"
    summary := some "A short synthesis."
    recommendation := some "Proceed."
    key_considerations := some ["budget"]
    next_steps := some ["try staging"] }

/-- C7 witness: the amended statement evaluated at a concrete response and clock. -/
theorem C7_witness :
    runBriefSynthesis intake0 [out0] [] (some rawBrief0) "2026-01-01T00:00:00.000Z" =
      Except.ok (parseBriefOutput rawBrief0 "2026-01-01T00:00:00.000Z") ∧
    (parseBriefOutput rawBrief0 "2026-01-01T00:00:00.000Z").generated_at =
      some "2026-01-01T00:00:00.000Z" := by
  exact ⟨(C7_amended intake0 [out0] [] rawBrief0 "2026-01-01T00:00:00.000Z").1,
    (C7_amended intake0 [out0] [] rawBrief0 "2026-01-01T00:00:00.000Z").2.1⟩

-- ============================================
-- C8: store insert and replace semantics
-- ============================================

/-- C8 counterexample: in the in-memory fallback mode, insert with an already-stored
run_id silently overwrites the stored run. -/
theorem C8_counterexample :
    getRun stMem0 "r1" = some run0 ∧
    getRun (insertRun stMem0 runB) "r1" = some runB ∧
    runB ≠ run0 := by
  refine ⟨rfl, rfl, by decide⟩

/-- C8 amended: in the in-memory fallback mode insert silently overwrites any
already-stored run with the same run_id and replace creates the entry even when the
run_id is absent; in MongoDB mode insert appends a further document while get keeps
returning the earlier one, and replace changes nothing when the run_id is absent. -/
theorem C8_amended :
    (∀ (st : RunStore) (r : DecisionRunResult), st.useMemory = true →
      getRun (insertRun st r) r.run_id = some r) ∧
    (∀ (st : RunStore) (r r0 : DecisionRunResult), st.useMemory = false →
      getRun st r.run_id = some r0 →
      getRun (insertRun st r) r.run_id = some r0) ∧
    (∀ (st : RunStore) (id : String) (r : DecisionRunResult), st.useMemory = true →
      getRun (replaceRun st id r) id = some r) ∧
    (∀ (st : RunStore) (id : String) (r : DecisionRunResult), st.useMemory = false →
      getRun st id = none → replaceRun st id r = st) := by
  refine ⟨?_, ?_, ?_, ?_⟩
  · intro st r h
    simp [getRun, insertRun, memSet, h, List.lookup]
  · intro st r r0 h hget
    simp only [getRun, insertRun, h, if_false, Bool.false_eq_true, ite_false] at hget ⊢
    exact find?_append_some st.mongo [r] _ r0 hget
  · intro st id r h
    simp [getRun, replaceRun, memSet, h, List.lookup]
  · intro st id r h hget
    obtain ⟨um, mem, mg⟩ := st
    cases h
    simp only [getRun, Bool.false_eq_true, if_false] at hget
    simp only [replaceRun, Bool.false_eq_true, if_false]
    rw [updateFirst_of_none mg id r hget]

/-- C8 witness: the amended statement evaluated at the concrete stores. -/
theorem C8_witness :
    getRun (insertRun stMem0 runB) "r1" = some runB ∧
    getRun (insertRun stMongo0 runB) "r1" = some run0 ∧
    getRun (replaceRun stEmptyMem "rX" runB) "rX" = some runB ∧
    replaceRun stMongo0 "rX" runB = stMongo0 := by
  exact ⟨C8_amended.1 stMem0 runB rfl,
    C8_amended.2.1 stMongo0 runB run0 rfl rfl,
    C8_amended.2.2.1 stEmptyMem "rX" runB rfl,
    C8_amended.2.2.2 stMongo0 "rX" runB rfl rfl⟩

-- ============================================
-- C1: transition atomicity with respect to the store
-- ============================================

/-- C1: in the in-memory fallback mode the clarification transition is not atomic.
With the always-throwing evaluator, the submission against run0 returns the 500
response, yet a subsequent getRun observes the stored run already carrying status
processing_clarification and the submitted round, because the handler mutated the
Map-held object in place before the lens re-run threw. In MongoDB mode the same
input leaves the stored run unchanged. -/
theorem C1_memory_fallback_mutation :
    (handleClarification evFail req0 stMem0).1 =
      ApiResponse.error "Internal server error" 500 ∧
    getRun (handleClarification evFail req0 stMem0).2 "r1" =
      some { run0 with
              clarifications := [submittedClarification req0]
              status := DecisionRunStatus.processing_clarification } ∧
    getRun stMem0 "r1" = some run0 ∧
    (handleClarification evFail req0 stMongo0).1 =
      ApiResponse.error "Internal server error" 500 ∧
    getRun (handleClarification evFail req0 stMongo0).2 "r1" = some run0 := by
  refine ⟨rfl, rfl, rfl, rfl, rfl⟩

-- ============================================
-- C3: clarification completion
-- ============================================

/-- C3: after a successful submitClarification the returned and persisted run has
clarification_needed false, empty clarification_questions, status complete, a present
decision_brief, the submitted round appended to the earlier rounds, and lens_outputs
replaced wholesale by the re-run outputs. -/
theorem C3_clarification_completion (ev : LensEvaluator) (req : ClarificationRequest)
    (st : RunStore) (run : DecisionRunResult) (outs : List LensOutput)
    (hval : validateClarificationRequest req = none)
    (hget : getRun st req.run_id = some run)
    (hstatus : run.status = DecisionRunStatus.awaiting_clarification)
    (hlens : runLenses ev run.intake (run.clarifications ++ [submittedClarification req]) =
      Except.ok outs) :
    (handleClarification ev req st).1 = ApiResponse.ok (clarifiedRun req run outs) ∧
    getRun (handleClarification ev req st).2 req.run_id = some (clarifiedRun req run outs) ∧
    (clarifiedRun req run outs).clarification_needed = false ∧
    (clarifiedRun req run outs).clarification_questions = [] ∧
    (clarifiedRun req run outs).status = DecisionRunStatus.complete ∧
    (clarifiedRun req run outs).decision_brief = some (synthesizeBrief run.intake outs) ∧
    (clarifiedRun req run outs).clarifications =
      run.clarifications ++ [submittedClarification req] ∧
    (clarifiedRun req run outs).lens_outputs = outs := by
  refine ⟨?_, handleClarification_success_getRun ev req st run outs hval hget hstatus hlens,
    rfl, rfl, rfl, rfl, rfl, rfl⟩
  rw [handleClarification_success ev req st run outs hval hget hstatus hlens]

/-- C3 witness: the completion statement evaluated at the concrete awaiting run. -/
theorem C3_witness :
    (handleClarification evOk req0 stMem0).1 = ApiResponse.ok (clarifiedRun req0 run0 [out0]) ∧
    getRun (handleClarification evOk req0 stMem0).2 "r1" =
      some (clarifiedRun req0 run0 [out0]) := by
  have h := C3_clarification_completion evOk req0 stMem0 run0 [out0] rfl rfl rfl rfl
  exact ⟨h.1, h.2.1⟩

-- ============================================
-- C6: state-conflict gating
-- ============================================

/-- C6: a clarification submitted against a stored run that is not awaiting
clarification is rejected with the state-conflict message and HTTP 400, and the
store is returned unchanged, so the stored run is identical before and after. -/
theorem C6_state_conflict (ev : LensEvaluator) (req : ClarificationRequest)
    (st : RunStore) (run : DecisionRunResult)
    (hval : validateClarificationRequest req = none)
    (hget : getRun st req.run_id = some run)
    (hstatus : run.status ≠ DecisionRunStatus.awaiting_clarification) :
    handleClarification ev req st =
      (ApiResponse.error
        ("Cannot submit clarification for run in status: " ++ statusToString run.status) 400,
        st) := by
  unfold handleClarification
  rw [hval, hget]
  simp [hstatus]

/-- C6 witness: the gating statement evaluated at a completed run. -/
theorem C6_witness :
    handleClarification evOk req0 stMemComplete =
      (ApiResponse.error "Cannot submit clarification for run in status: complete" 400,
        stMemComplete) := by
  exact C6_state_conflict evOk req0 stMemComplete runComplete0 rfl rfl (by decide)

-- ============================================
-- C9: clarification_needed is synchronized with clarification_questions
-- ============================================

/-- C9: every run returned (and persisted) by the two handlers keeps
clarification_needed equal to the non-emptiness of clarification_questions; at
intake time the questions are exactly the flattening of questions_to_answer_next
across the lens outputs, and after a successful clarification they are empty. -/
theorem C9_sync_invariant :
    (∀ (ev : LensEvaluator) (d r : String) (req : IntakeRequest) (st : RunStore)
      (res : DecisionRunResult) (st2 : RunStore),
      handleIntake ev d r req st = (ApiResponse.ok res, st2) →
      (res.clarification_needed = true ↔ res.clarification_questions ≠ []) ∧
      res.clarification_questions = extractClarificationQuestions res.lens_outputs) ∧
    (∀ (ev : LensEvaluator) (req : ClarificationRequest) (st : RunStore)
      (res : DecisionRunResult) (st2 : RunStore),
      handleClarification ev req st = (ApiResponse.ok res, st2) →
      res.clarification_needed = false ∧ res.clarification_questions = [] ∧
      (res.clarification_needed = true ↔ res.clarification_questions ≠ [])) := by
  constructor
  · intro ev d r req st res st2 h
    rw [handleIntake_eq] at h
    split at h
    · simp at h
    · split at h
      · simp at h
      · simp only [Prod.mk.injEq, ApiResponse.ok.injEq] at h
        obtain ⟨h1, h2⟩ := h
        subst h1
        exact ⟨needed_iff _, rfl⟩
  · intro ev req st res st2 h
    rw [handleClarification_eq] at h
    split at h
    · simp at h
    · split at h
      · simp at h
      · split at h
        · simp at h
        · split at h
          · simp at h
          · simp only [Prod.mk.injEq, ApiResponse.ok.injEq] at h
            obtain ⟨h1, h2⟩ := h
            subst h1
            exact ⟨rfl, rfl, by simp [clarifiedRun]⟩

/-- C9 witness: the intake part of the invariant evaluated at a completed intake. -/
theorem C9_witness :
    (intakeRunComplete.clarification_needed = true ↔
      intakeRunComplete.clarification_questions ≠ []) ∧
    intakeRunComplete.clarification_questions =
      extractClarificationQuestions intakeRunComplete.lens_outputs := by
  exact C9_sync_invariant.1 evOk "dX" "r9" reqValidIntake stEmptyMem intakeRunComplete
    (insertRun stEmptyMem intakeRunComplete) rfl

-- ============================================
-- C10: decision_id and clarification_round are recorded unchecked
-- ============================================

/-- C10: submitClarification never compares the submitted decision_id with the
stored run, and never constrains clarification_round: any submission with non-blank
decision_id and run_id, a non-empty answer list, a stored run in awaiting
clarification and a successful re-run is accepted, and the appended Clarification
records the caller-supplied decision_id and clarification_round verbatim. -/
theorem C10_decision_id_unchecked (ev : LensEvaluator) (req : ClarificationRequest)
    (st : RunStore) (run : DecisionRunResult) (outs : List LensOutput)
    (h1 : trimString req.decision_id ≠ "")
    (h2 : trimString req.run_id ≠ "")
    (h3 : req.answers ≠ [])
    (hget : getRun st req.run_id = some run)
    (hstatus : run.status = DecisionRunStatus.awaiting_clarification)
    (hlens : runLenses ev run.intake (run.clarifications ++ [submittedClarification req]) =
      Except.ok outs) :
    (handleClarification ev req st).1 = ApiResponse.ok (clarifiedRun req run outs) ∧
    (clarifiedRun req run outs).clarifications =
      run.clarifications ++ [submittedClarification req] ∧
    (submittedClarification req).decision_id = req.decision_id ∧
    (submittedClarification req).clarification_round = req.clarification_round := by
  have e1 : (trimString req.decision_id == "") = false := beq_eq_false_iff_ne.mpr h1
  have e2 : (trimString req.run_id == "") = false := beq_eq_false_iff_ne.mpr h2
  have e3 : req.answers.isEmpty = false := by
    cases hx : req.answers with
    | nil => exact absurd hx h3
    | cons a l => rfl
  have hval : validateClarificationRequest req = none := by
    simp [validateClarificationRequest, e1, e2, e3]
  refine ⟨?_, rfl, rfl, rfl⟩
  rw [handleClarification_success ev req st run outs hval hget hstatus hlens]

/-- C10 witness: a submission whose decision_id differs from the stored run and
whose clarification_round is negative is accepted and recorded verbatim. -/
theorem C10_witness :
    (handleClarification evOk reqMismatch stMem0).1 =
      ApiResponse.ok (clarifiedRun reqMismatch run0 [out0]) ∧
    (clarifiedRun reqMismatch run0 [out0]).clarifications =
      [submittedClarification reqMismatch] ∧
    (submittedClarification reqMismatch).decision_id = "other-decision" ∧
    (submittedClarification reqMismatch).clarification_round = -5 ∧
    reqMismatch.decision_id ≠ run0.decision_id := by
  have h := C10_decision_id_unchecked evOk reqMismatch stMem0 run0 [out0]
    (by decide) (by decide) (by decide) rfl rfl rfl
  exact ⟨h.1, h.2.1, rfl, rfl, by decide⟩

end DecisionCopilot
